import Mathlib

/-!
Verification of the lead-generation pipeline core (waterfall enrichment,
retry policy, suppression gate, reply router, campaign-health evaluator)
against its natural-language specification.

The Python modules under `src/` are shallowly embedded: dicts holding lead
fields become a `Lead` structure, the `requests` exception taxonomy becomes
the `CallOutcome` type, and each external HTTP provider becomes an oracle
function (per call-site and per attempt) supplied through `ProviderEnv`.
Logging, sleeping (rate-limit and backoff delays) and file persistence are
side effects with no bearing on the verified data flow and are dropped.
-/

namespace LeadGen

/-! ## String helpers

Python string primitives (`str.strip`, `str.lower`, `str.upper`,
`str.split`, `str.replace`) modelled as executable functions on the
character list underlying a `String`. -/

/-- `str.strip()`: drop whitespace from both ends of a character list. -/
def pyStripList (l : List Char) : List Char :=
  ((l.dropWhile Char.isWhitespace).reverse.dropWhile Char.isWhitespace).reverse

/-- `str.strip()` on strings. -/
def pyStrip (s : String) : String := ⟨pyStripList s.data⟩

/-- `str.lower()` (ASCII, which is all the pipeline feeds it). -/
def pyLower (s : String) : String := ⟨s.data.map Char.toLower⟩

/-- `str.upper()` (ASCII, which is all the pipeline feeds it). -/
def pyUpper (s : String) : String := ⟨s.data.map Char.toUpper⟩

/-- `str.split(sep)` for a one-character separator, on character lists.
`splitOnCharList '@' "a@b"` is `["a", "b"]`; the empty string splits to
`[""]`, as in Python. -/
def splitOnCharList (sep : Char) : List Char → List (List Char)
  | [] => [[]]
  | c :: rest =>
    let parts := splitOnCharList sep rest
    if c = sep then [] :: parts
    else
      match parts with
      | p :: ps => (c :: p) :: ps
      | [] => [[c]]

/-- `str.split(sep)[0]` for a one-character separator. -/
def splitHead (sep : Char) (s : String) : String :=
  ⟨(splitOnCharList sep s.data).headD []⟩

/-- `str.replace(pat, "")`: remove every (left-to-right, non-overlapping)
occurrence of the non-empty pattern `pat`. -/
def removeAllList (pat : List Char) : List Char → List Char
  | [] => []
  | c :: rest =>
    if pat.isPrefixOf (c :: rest) ∧ pat ≠ [] then
      removeAllList pat (rest.drop (pat.length - 1))
    else
      c :: removeAllList pat rest
termination_by l => l.length
decreasing_by
  · simp only [List.length_drop, List.length_cons]
    omega
  · simp only [List.length_cons]
    omega

/-- `str.replace(pat, "")` on strings. -/
def removeAll (pat s : String) : String := ⟨removeAllList pat.data s.data⟩

/-! ## `src/utils/validators.py` -/

/-- Character class `[a-zA-Z0-9._%+-]` of `EMAIL_REGEX`'s local part. -/
def isLocalChar (c : Char) : Bool :=
  c.isAlpha || c.isDigit || c = '.' || c = '_' || c = '%' || c = '+' || c = '-'

/-- Character class `[a-zA-Z0-9.-]` of `EMAIL_REGEX`'s domain part. -/
def isDomainChar (c : Char) : Bool :=
  c.isAlpha || c.isDigit || c = '.' || c = '-'

/-- Match of `EMAIL_REGEX = ^[a-zA-Z0-9._%+-]+@[a-zA-Z0-9.-]+\.[a-zA-Z]{2,}$`
against a (already stripped) string.  The two character classes exclude `@`,
so the string must contain exactly one `@`; the final `[a-zA-Z]{2,}` label
contains no dot, so it is exactly the text after the domain's last dot. -/
def email_regex_match (s : String) : Bool :=
  match (splitOnCharList '@' s.data).map (fun l => (⟨l⟩ : String)) with
  | [locPart, domain] =>
    !locPart.isEmpty && locPart.data.all isLocalChar &&
    domain.data.all isDomainChar &&
    (let parts := splitOnCharList '.' domain.data
     decide (2 ≤ parts.length) &&
     !(parts.dropLast.all (fun p => p.isEmpty) &&
       decide (parts.length = 2)) &&
     (let tld := parts.getLastD []
      decide (2 ≤ tld.length) && tld.all Char.isAlpha))
  | _ => false

/-- `validators.is_valid_email`: empty input is rejected, otherwise the
stripped string must match `EMAIL_REGEX`. -/
def is_valid_email (email : String) : Bool :=
  if email = "" then false
  else email_regex_match (pyStrip email)

/-- `validators.sanitize_email`: strip and lower-case, return `""` unless
the result passes `is_valid_email`. -/
def sanitize_email (email : String) : String :=
  if email = "" then ""
  else
    let e := pyLower (pyStrip email)
    if is_valid_email e then e else ""

example : is_valid_email "owner@goodbarber.com" = true := by decide
example : is_valid_email "a@b" = false := by decide
example : is_valid_email "a@" = false := by decide
example : is_valid_email "@b.com" = false := by decide
example : is_valid_email " user@x.co " = true := by decide
example : is_valid_email "user@.com" = false := by decide
example : is_valid_email "u v@x.com" = false := by decide
example : sanitize_email " User@Example.COM " = "user@example.com" := by decide

/-! ## `src/utils/rate_limiter.py`

A wrapped operation either returns a value or raises.  The `requests`
exception taxonomy that `retry_with_backoff` distinguishes is:
`HTTPError` carrying a response status code, the retryable network
exceptions (`ConnectionError`, `Timeout`, `ChunkedEncodingError`), and
every other exception.  The behaviour of one invocation is supplied as a
function of the 0-based attempt number; `rate_limit` only sleeps and is
dropped, as are the backoff sleeps themselves (`base_delay` affects no
returned value). -/

/-- Outcome of one invocation of a wrapped operation: normal return,
`HTTPError` with the response's status code, a retryable network-level
exception, or any other (non-retryable) exception. -/
inductive CallOutcome (α : Type) where
  | ok : α → CallOutcome α
  | httpError : Nat → CallOutcome α
  | netError : CallOutcome α
  | otherError : CallOutcome α
deriving DecidableEq, Repr

/-- Exception propagation: apply `g` to a normal result, pass any raised
exception through unchanged. -/
def CallOutcome.bind : CallOutcome α → (α → CallOutcome β) → CallOutcome β
  | .ok a, g => g a
  | .httpError s, _ => .httpError s
  | .netError, _ => .netError
  | .otherError, _ => .otherError

/-- Transform the value inside a normal return. -/
def CallOutcome.map (g : α → β) : CallOutcome α → CallOutcome β
  | .ok a => .ok (g a)
  | .httpError s => .httpError s
  | .netError => .netError
  | .otherError => .otherError

/-- Whether the outcome is a normal return. -/
def CallOutcome.isOk : CallOutcome α → Bool
  | .ok _ => true
  | _ => false

/-- `_RETRYABLE_STATUS_CODES = {429, 500, 502, 503, 504}`. -/
def RETRYABLE_STATUS_CODES : List Nat := [429, 500, 502, 503, 504]

/-- The `for attempt in range(max_retries + 1)` loop of
`retry_with_backoff`; `fuel = max_retries - attempt` counts the retries
still permitted (so `fuel = 0` is Python's `attempt == max_retries`).
Returns the final outcome together with the number of invocations made.
An `HTTPError` is re-raised unless its status is retryable and retries
remain; a network exception is re-raised only when retries are exhausted;
any other exception is re-raised at once. -/
def retryLoop (f : Nat → CallOutcome α) : Nat → Nat → CallOutcome α × Nat
  | fuel, attempt =>
    match f attempt, fuel with
    | .ok a, _ => (.ok a, attempt + 1)
    | .httpError s, 0 => (.httpError s, attempt + 1)
    | .httpError s, fuel' + 1 =>
      if s ∈ RETRYABLE_STATUS_CODES then retryLoop f fuel' (attempt + 1)
      else (.httpError s, attempt + 1)
    | .netError, 0 => (.netError, attempt + 1)
    | .netError, fuel' + 1 => retryLoop f fuel' (attempt + 1)
    | .otherError, _ => (.otherError, attempt + 1)

/-- `retry_with_backoff(max_retries)` applied to an operation whose
attempt-indexed outcomes are `f`: the final outcome and the number of
invocations of `f`. -/
def retry_with_backoff (max_retries : Nat) (f : Nat → CallOutcome α) :
    CallOutcome α × Nat :=
  retryLoop f max_retries 0

/-! ## `src/enrichment/waterfall.py`

The three HTTP call sites of `EmailEnricher` (`_prospeo_search`,
`_hunter_search` and the verifier request of `verify_email`) are oracles:
for each argument and each 0-based attempt number the environment gives
the raw outcome of that attempt.  A search attempt's normal return is the
optional first candidate email of the provider's response (`None` when
the response carries no email); a verification attempt's normal return is
the provider's `result` string. -/

/-- Per-attempt outcomes of the three external call sites of
`EmailEnricher`. -/
structure ProviderEnv where
  prospeoRaw : String → Nat → CallOutcome (Option String)
  hunterRaw : String → Nat → CallOutcome (Option String)
  verifier : String → Nat → CallOutcome String

/-- Lines 37–40 / 54–57: the candidate email of a successful search
response is sanitized; an empty sanitization is `None`. -/
def candidate_of (raw : Option String) : Option String :=
  match raw with
  | none => none
  | some e =>
    let found := sanitize_email e
    if found = "" then none else some found

/-- `EmailEnricher._prospeo_search` under its `retry_with_backoff(2)`
decorator: each attempt performs the request and sanitizes the response's
candidate. -/
def prospeo_search (env : ProviderEnv) (domain : String) :
    CallOutcome (Option String) × Nat :=
  retry_with_backoff 2
    (fun attempt => (env.prospeoRaw domain attempt).map candidate_of)

/-- `EmailEnricher._hunter_search` under its `retry_with_backoff(2)`
decorator. -/
def hunter_search (env : ProviderEnv) (domain : String) :
    CallOutcome (Option String) × Nat :=
  retry_with_backoff 2
    (fun attempt => (env.hunterRaw domain attempt).map candidate_of)

/-- `EmailEnricher.verify_email` under its `retry_with_backoff(2)`
decorator: invalid-format input short-circuits to `False` with no call;
otherwise the provider's `result` string is compared to `"valid"`. -/
def verify_email (env : ProviderEnv) (email : String) : CallOutcome Bool :=
  if !is_valid_email email then .ok false
  else
    (retry_with_backoff 2
      (fun attempt => (env.verifier email attempt).map
        (fun result => result == "valid"))).1

/-- A lead record.  Only the fields the verified components read or write
are carried; a field a Python dict would lack defaults to the value
`dict.get` supplies for it. -/
structure Lead where
  business_name : String := "unknown"
  email : String := ""
  website : String := ""
  enrichment_source : String := ""
  email_verified : Bool := false
deriving DecidableEq, Repr

/-- Line 78: `website.replace("https://", "").replace("http://", "").split("/")[0]`. -/
def extract_domain (website : String) : String :=
  splitHead '/' (removeAll "http://" (removeAll "https://" website))

/-- The `try/except` around each search layer of `enrich`:
`HTTPError` and the network exceptions are caught (logged as a warning)
and treated as "no candidate"; any other exception propagates (`none`). -/
def caught_candidate : CallOutcome (Option String) → Option (Option String)
  | .ok c => some c
  | .httpError _ => some none
  | .netError => some none
  | .otherError => none

/-- `if found:` — a layer updates `(email, source)` only on a truthy
(non-`None`, non-empty) candidate. -/
def layer_update (c : Option String) (src : String)
    (fallback : String × String) : String × String :=
  match c with
  | some f => if f ≠ "" then (f, src) else fallback
  | none => fallback

/-- `EmailEnricher.enrich`: layer 1 keeps an already-valid email with
source `"scraped"`; a lead with no website gets source `"none"`;
otherwise Prospeo and (only while the email is still invalid) Hunter are
queried on the extracted domain, caught exceptions counting as no
candidate, and the lead's `email`/`enrichment_source` are set to the
final values. -/
def enrich (env : ProviderEnv) (lead : Lead) : CallOutcome Lead :=
  if is_valid_email lead.email then
    .ok { lead with enrichment_source := "scraped" }
  else if lead.website = "" then
    .ok { lead with enrichment_source := "none" }
  else
    match caught_candidate
        (prospeo_search env (extract_domain lead.website)).1 with
    | none => .otherError
    | some c1 =>
      if is_valid_email (layer_update c1 "prospeo" (lead.email, "scraped")).1
      then
        .ok { lead with
          email := (layer_update c1 "prospeo" (lead.email, "scraped")).1,
          enrichment_source :=
            (layer_update c1 "prospeo" (lead.email, "scraped")).2 }
      else
        match caught_candidate
            (hunter_search env (extract_domain lead.website)).1 with
        | none => .otherError
        | some c2 =>
          .ok { lead with
            email := (layer_update c2 "hunter"
              (layer_update c1 "prospeo" (lead.email, "scraped"))).1,
            enrichment_source := (layer_update c2 "hunter"
              (layer_update c1 "prospeo" (lead.email, "scraped"))).2 }

/-- `EmailEnricher.enrich_and_verify`: enrich, then verify a
syntactically valid result (`email_verified := verifier's verdict`) or
mark `email_verified := false` without a verification call. -/
def enrich_and_verify (env : ProviderEnv) (lead : Lead) : CallOutcome Lead :=
  (enrich env lead).bind fun l =>
    if is_valid_email l.email then
      (verify_email env l.email).bind fun v =>
        .ok { l with email_verified := v }
    else
      .ok { l with email_verified := false }

/-- `EmailEnricher.process_batch`: the `for` loop accumulates the leads
whose `email_verified` is set; an exception raised while processing any
lead propagates out of the loop (there is no `try/except` in the batch
loop). -/
def process_batch (env : ProviderEnv) : List Lead → CallOutcome (List Lead)
  | [] => .ok []
  | lead :: rest =>
    (enrich_and_verify env lead).bind fun result =>
      (process_batch env rest).bind fun tail =>
        .ok (if result.email_verified then result :: tail else tail)

/-- The lead kept by `process_batch` for one input lead: the enriched and
verified record when its `email_verified` flag is set, nothing otherwise. -/
def keep_verified (env : ProviderEnv) (lead : Lead) : Option Lead :=
  match enrich_and_verify env lead with
  | .ok r => if r.email_verified then some r else none
  | _ => none

/-! ## `src/compliance/suppression.py`

`SuppressionManager._cache` is a Python dict keyed by normalized email;
it is embedded as an insertion-ordered association list (new keys are
appended, as dict insertion does).  `_save`/`_load` persistence is file
I/O with no effect on the in-memory semantics and is dropped. -/

/-- The value stored for a suppressed email: reason, source and the
`added_at` timestamp string. -/
structure SuppressionEntry where
  reason : String
  source : String
  added_at : String
deriving DecidableEq, Repr

/-- The in-memory suppression table (`SuppressionManager._cache`). -/
abbrev SuppressionCache := List (String × SuppressionEntry)

/-- Dict lookup by key. -/
def lookup_entry (key : String) : SuppressionCache → Option SuppressionEntry
  | [] => none
  | (k, v) :: rest => if k = key then some v else lookup_entry key rest

/-- The normalized key of an email: `email.strip().lower()`. -/
def normalize_key (email : String) : String := pyLower (pyStrip email)

/-- `SuppressionManager.is_suppressed`: empty input is never suppressed;
otherwise membership of the normalized key in the cache. -/
def is_suppressed (cache : SuppressionCache) (email : String) : Bool :=
  if email = "" then false
  else (lookup_entry (normalize_key email) cache).isSome

/-- `SuppressionManager.add`: no-op when the normalized key is already
present (first write wins); otherwise a new entry is appended.  `now` is
the `datetime.now(timezone.utc).isoformat()` timestamp. -/
def suppression_add (cache : SuppressionCache)
    (email reason source now : String) : SuppressionCache :=
  match lookup_entry (normalize_key email) cache with
  | some _ => cache
  | none => cache ++ [(normalize_key email, ⟨reason, source, now⟩)]

/-- `SuppressionManager.count`: the size of the cache. -/
def suppression_count (cache : SuppressionCache) : Nat := cache.length

/-- `SuppressionManager.filter_leads` with the default `email_key`:
split a batch into `(allowed, suppressed)` in input order. -/
def filter_leads (cache : SuppressionCache) :
    List Lead → List Lead × List Lead
  | [] => ([], [])
  | lead :: rest =>
    let tail := filter_leads cache rest
    if is_suppressed cache lead.email then (tail.1, lead :: tail.2)
    else (lead :: tail.1, tail.2)

/-- One element of the `entries` argument of `bulk_add`; a missing dict
key defaults exactly as the `entry.get(...)` calls do. -/
structure BulkEntry where
  email : String := ""
  reason : String := "bulk_import"
  source : String := "manual"
deriving DecidableEq, Repr

/-- `SuppressionManager.bulk_add`: add each entry with a non-empty,
not-yet-suppressed email; returns the updated cache together with the
logged count of new additions. -/
def bulk_add (cache : SuppressionCache) (now : String) :
    List BulkEntry → SuppressionCache × Nat
  | [] => (cache, 0)
  | e :: rest =>
    if e.email ≠ "" ∧ is_suppressed cache e.email = false then
      let cache1 := suppression_add cache e.email e.reason e.source now
      let tail := bulk_add cache1 now rest
      (tail.1, tail.2 + 1)
    else
      bulk_add cache now rest

/-! ## `src/monitoring/campaign_monitor.py`

The Python floats of `CampaignHealth` are embedded as rationals; each
rate is the exact value `count / total_sent * 100` the code computes.
`get_health` is an external fetch; `check_and_alert` is verified as a
function of the health snapshot it evaluates and the configured
`max_bounce_rate` threshold.  The alert strings carry dynamic numbers via
f-strings; each is abstracted to a distinct fixed marker since no
decision depends on the text. -/

/-- `CampaignHealth` dataclass. -/
structure CampaignHealth where
  campaign_id : String
  total_sent : Nat := 0
  total_opened : Nat := 0
  total_replied : Nat := 0
  total_bounced : Nat := 0
  total_unsubscribed : Nat := 0
deriving DecidableEq, Repr

/-- `bounce_rate`: `total_bounced / total_sent * 100`, `0.0` when
`total_sent` is falsy. -/
def CampaignHealth.bounce_rate (h : CampaignHealth) : ℚ :=
  if h.total_sent ≠ 0 then (h.total_bounced : ℚ) / (h.total_sent : ℚ) * 100
  else 0

/-- `reply_rate`. -/
def CampaignHealth.reply_rate (h : CampaignHealth) : ℚ :=
  if h.total_sent ≠ 0 then (h.total_replied : ℚ) / (h.total_sent : ℚ) * 100
  else 0

/-- `open_rate`. -/
def CampaignHealth.open_rate (h : CampaignHealth) : ℚ :=
  if h.total_sent ≠ 0 then (h.total_opened : ℚ) / (h.total_sent : ℚ) * 100
  else 0

/-- `unsubscribe_rate`. -/
def CampaignHealth.unsubscribe_rate (h : CampaignHealth) : ℚ :=
  if h.total_sent ≠ 0 then
    (h.total_unsubscribed : ℚ) / (h.total_sent : ℚ) * 100
  else 0

/-- `is_healthy(max_bounce_pct=2.0, max_unsub_pct=2.0)`. -/
def CampaignHealth.is_healthy (h : CampaignHealth)
    (max_bounce_pct : ℚ := 2) (max_unsub_pct : ℚ := 2) : Bool :=
  decide (h.bounce_rate ≤ max_bounce_pct) &&
  decide (h.unsubscribe_rate ≤ max_unsub_pct)

/-- Marker for the bounce-rate alert message. -/
def bounce_alert_msg : String :=
  "ALERT: Bounce rate exceeds threshold. Pause campaign and clean email list."

/-- Marker for the unsubscribe-rate alert message. -/
def unsub_alert_msg : String :=
  "ALERT: Unsubscribe rate exceeds 2%. Review targeting and copy."

/-- Marker for the low-reply-rate warning message. -/
def low_reply_msg : String :=
  "WARNING: Reply rate below 3% after 500+ sends. Consider A/B testing new templates."

/-- `CampaignMonitor.check_and_alert` applied to a health snapshot and
the configured `max_bounce_rate`: no alerts on zero sends; otherwise the
bounce, unsubscribe and low-reply checks each append their alert
independently. -/
def check_and_alert (health : CampaignHealth) (max_bounce_rate : ℚ) :
    List String :=
  if health.total_sent = 0 then []
  else
    (if health.bounce_rate > max_bounce_rate then [bounce_alert_msg] else []) ++
    (if health.unsubscribe_rate > 2 then [unsub_alert_msg] else []) ++
    (if 500 ≤ health.total_sent ∧ health.reply_rate < 3 then [low_reply_msg]
     else [])

/-! ## `src/reply_handling/classifier.py`

`classify` sends the reply text to the external LLM; the verified part is
the handling of whatever token string the service returns, so `classify`
is embedded as a function of that returned token.  `route`'s Slack
notification is a logged, fire-and-forget side effect; its LLM draft call
is an oracle `draftFn`. -/

/-- `VALID_CATEGORIES` (a Python set; only membership is used). -/
def VALID_CATEGORIES : List String :=
  ["INTERESTED", "NOT_INTERESTED", "MEETING_REQUEST",
   "OUT_OF_OFFICE", "UNSUBSCRIBE", "QUESTION"]

/-- `ReplyClassifier.classify` as a function of the token string returned
by the classification service: `.strip().upper()`, then coercion of
anything outside `VALID_CATEGORIES` to `"QUESTION"`. -/
def classify (returned : String) : String :=
  let category := pyUpper (pyStrip returned)
  if VALID_CATEGORIES.contains category then category else "QUESTION"

/-- The dict `route` returns: `email`, `category`, `action`, and the
draft attached only on the `draft_response` path. -/
structure RoutedAction where
  email : String
  category : String
  action : String
  draft : Option String := none
deriving DecidableEq, Repr

/-- `ReplyClassifier.route`: the category-to-action mapping, initialised
with `action = ""` and left there by any category outside the six. -/
def route (draftFn : String → String) (email reply_text category : String) :
    RoutedAction :=
  if category = "INTERESTED" ∨ category = "MEETING_REQUEST" then
    { email := email, category := category, action := "slack_alert" }
  else if category = "NOT_INTERESTED" then
    { email := email, category := category, action := "log_and_remove" }
  else if category = "QUESTION" then
    { email := email, category := category, action := "draft_response",
      draft := some (draftFn reply_text) }
  else if category = "OUT_OF_OFFICE" then
    { email := email, category := category, action := "reschedule" }
  else if category = "UNSUBSCRIBE" then
    { email := email, category := category, action := "suppress" }
  else
    { email := email, category := category, action := "" }

/-! ## `scripts/run_pipeline.py` stage 4 and
`src/outreach/instantly_client.py`

After `process_batch`, `run_pipeline` hands `verified_leads` directly to
`InstantlyClient.add_leads_batch` (personalization between the two stages
annotates `ai_first_line` fields but neither adds, removes nor reorders
leads, and the research/writer calls have their own `try/except`).
`add_leads_batch` keeps exactly the leads whose email passes
`is_valid_email` and posts them.  No `SuppressionManager` object is
constructed and `filter_leads` is never called anywhere in the script. -/

/-- The batch of leads `run_pipeline` posts to the outreach platform (the
`leads` list of the `/lead/add` payload built by `add_leads_batch`) for a
given scraped batch, in a run with `dry_run = skip_outreach = False`. -/
def pipeline_pushed_batch (env : ProviderEnv) (scraped : List Lead) :
    CallOutcome (List Lead) :=
  (process_batch env scraped).bind fun verified =>
    .ok (verified.filter (fun lead => is_valid_email lead.email))

/-! ## Concrete data for instantiating the theorems -/

/-- Whether a search layer's outcome yields no usable candidate: either a
caught provider failure or a successful response with no candidate. -/
def layer_no_result : CallOutcome (Option String) → Bool
  | .ok none => true
  | .httpError _ => true
  | .netError => true
  | _ => false

/-- An environment whose searches find nothing and whose verifier always
reports `"valid"`. -/
def envValid : ProviderEnv :=
  { prospeoRaw := fun _ _ => .ok none
    hunterRaw := fun _ _ => .ok none
    verifier := fun _ _ => .ok "valid" }

/-- An environment whose verification endpoint answers HTTP 404 (a
non-retryable client error) on every attempt. -/
def env404 : ProviderEnv :=
  { prospeoRaw := fun _ _ => .ok none
    hunterRaw := fun _ _ => .ok none
    verifier := fun _ _ => .httpError 404 }

/-- An environment whose Prospeo endpoint answers HTTP 500 and whose
Hunter endpoint times out on every attempt, while verification works. -/
def envFailingSearches : ProviderEnv :=
  { prospeoRaw := fun _ _ => .httpError 500
    hunterRaw := fun _ _ => .netError
    verifier := fun _ _ => .ok "valid" }

/-- A scraped lead that already carries a valid email. -/
def goodLead : Lead :=
  { business_name := "Good Barber", email := "owner@goodbarber.com" }

/-- `goodLead` after enrichment and a successful verification. -/
def goodLeadVerified : Lead :=
  { goodLead with enrichment_source := "scraped", email_verified := true }

/-- A second scraped lead with a valid email. -/
def leadTwo : Lead :=
  { business_name := "Second Shop", email := "hello@secondshop.io" }

/-- A scraped lead with neither a usable email nor a website. -/
def badLead : Lead := { business_name := "No Email Shop" }

/-- A scraped lead with an invalid email but a website to search. -/
def webLead : Lead :=
  { business_name := "Web Only Shop", email := "not-an-email",
    website := "https://example.com/about" }

/-- A scraped lead whose (valid) email sits on the suppression list. -/
def optOutLead : Lead :=
  { business_name := "Opted Out Dental", email := "optout@example.com" }

/-- `optOutLead` after enrichment and a successful verification. -/
def optOutVerified : Lead :=
  { optOutLead with enrichment_source := "scraped", email_verified := true }

/-- A suppression table holding exactly `optOutLead`'s email. -/
def pipelineCache : SuppressionCache :=
  suppression_add [] "optout@example.com" "unsubscribe" "instantly"
    "2026-01-01T00:00:00+00:00"

/-- Whether an outcome is a failure `retry_with_backoff` retries: an
`HTTPError` with a retryable status code, or a network-level exception. -/
def is_retryable_failure : CallOutcome α → Bool
  | .httpError s => decide (s ∈ RETRYABLE_STATUS_CODES)
  | .netError => true
  | _ => false

/-- A `bulk_add` input with a duplicated email and an empty one. -/
def bulkEntriesSample : List BulkEntry :=
  [{ email := "a@test.com", reason := "bounce", source := "instantly" },
   { email := "a@test.com", reason := "unsubscribe" },
   { email := "" }]

/-- An environment where Prospeo answers HTTP 404 and Hunter times out on
every attempt, so neither layer ever yields a candidate. -/
def envNoCandidates : ProviderEnv :=
  { prospeoRaw := fun _ _ => .httpError 404
    hunterRaw := fun _ _ => .netError
    verifier := fun _ _ => .ok "valid" }

/-! ## Helper lemmas -/

/-- `classify` always lands in the six-member category set. -/
theorem classify_contains (returned : String) :
    classify returned ∈ VALID_CATEGORIES := by
  unfold classify
  by_cases h :
      VALID_CATEGORIES.contains (pyUpper (pyStrip returned)) = true
  · simp only [h, if_true]
    simpa [List.contains, List.elem_eq_mem] using h
  · simp only [h]
    simp [VALID_CATEGORIES]

/-- Both components of `filter_leads` are order-preserving filters of the
input. -/
theorem filter_leads_spec (cache : SuppressionCache) (leads : List Lead) :
    (filter_leads cache leads).1 =
      leads.filter (fun l => !(is_suppressed cache l.email)) ∧
    (filter_leads cache leads).2 =
      leads.filter (fun l => is_suppressed cache l.email) := by
  induction leads with
  | nil => exact ⟨rfl, rfl⟩
  | cons lead rest ih =>
    by_cases h : is_suppressed cache lead.email = true
    · simp [filter_leads, h, ih.1, ih.2]
    · simp [filter_leads, h, ih.1, ih.2]

/-- The two components of `filter_leads` together are exactly as long as
the input. -/
theorem filter_leads_length (cache : SuppressionCache) (leads : List Lead) :
    (filter_leads cache leads).1.length + (filter_leads cache leads).2.length
      = leads.length := by
  induction leads with
  | nil => rfl
  | cons lead rest ih =>
    by_cases h : is_suppressed cache lead.email = true <;>
      simp [filter_leads, h] <;> omega

/-! ## Claim theorems -/

/-- C8: for every token string returned by the external classification
service, `classify` returns a member of the fixed six-category set: the
token is upper-cased and trimmed, kept when it is one of the six, and
coerced to `"QUESTION"` otherwise. -/
theorem classify_coerces_to_category_set (returned : String) :
    classify returned ∈ VALID_CATEGORIES ∧
    (pyUpper (pyStrip returned) ∈ VALID_CATEGORIES →
      classify returned = pyUpper (pyStrip returned)) ∧
    (pyUpper (pyStrip returned) ∉ VALID_CATEGORIES →
      classify returned = "QUESTION") := by
  refine ⟨classify_contains returned, ?_, ?_⟩
  · intro h
    unfold classify
    simp [List.contains, List.elem_eq_mem, h]
  · intro h
    unfold classify
    simp [List.contains, List.elem_eq_mem, h]

/-- Witness for C8: a noisy non-category token is coerced to QUESTION, a
recognized token survives trimming and upper-casing. -/
theorem classify_coerces_to_category_set_witness :
    (pyUpper (pyStrip " maybe later?? ") ∉ VALID_CATEGORIES ∧
      classify " maybe later?? " = "QUESTION") ∧
    (pyUpper (pyStrip " interested ") ∈ VALID_CATEGORIES ∧
      classify " interested " = pyUpper (pyStrip " interested ")) :=
  ⟨⟨by decide,
    (classify_coerces_to_category_set " maybe later?? ").2.2 (by decide)⟩,
   ⟨by decide,
    (classify_coerces_to_category_set " interested ").2.1 (by decide)⟩⟩

/-- C10: `route` called directly with a category outside the six-member
set returns a dict whose `action` is the empty string and which carries
no draft; the QUESTION fail-safe lives only in `classify`, whose output
always routes to a non-empty action. -/
theorem route_unrecognized_category (draftFn : String → String)
    (email reply_text category : String)
    (h : category ∉ VALID_CATEGORIES) :
    route draftFn email reply_text category =
      { email := email, category := category, action := "" } ∧
    (route draftFn email reply_text category).draft = none ∧
    ∀ token : String,
      (route draftFn email reply_text (classify token)).action ≠ "" := by
  simp only [VALID_CATEGORIES, List.mem_cons, List.not_mem_nil, or_false,
    not_or] at h
  obtain ⟨h1, h2, h3, h4, h5, h6⟩ := h
  refine ⟨?_, ?_, ?_⟩
  · simp [route, h1, h2, h3, h4, h5, h6]
  · simp [route, h1, h2, h3, h4, h5, h6]
  · intro token
    have hmem := classify_contains token
    simp only [VALID_CATEGORIES, List.mem_cons, List.not_mem_nil,
      or_false] at hmem
    rcases hmem with hc | hc | hc | hc | hc | hc <;> simp [route, hc]

/-- Witness for C10 at the unrecognized category `"SPAM"`. -/
theorem route_unrecognized_category_witness :
    "SPAM" ∉ VALID_CATEGORIES ∧
    route (fun _ => "a draft") "a@b.com" "hi there" "SPAM" =
      { email := "a@b.com", category := "SPAM", action := "" } :=
  ⟨by decide,
   (route_unrecognized_category (fun _ => "a draft") "a@b.com" "hi there"
     "SPAM" (by decide)).1⟩

/-- C6: `filter_leads` partitions its input exactly once: both components
are order-preserving filters, their lengths sum to the input length,
leads with an empty or missing email land in `allowed`, and
`is_suppressed` on empty input is `false`. -/
theorem filter_leads_partitions (cache : SuppressionCache)
    (leads : List Lead) :
    (filter_leads cache leads).1.length + (filter_leads cache leads).2.length
      = leads.length ∧
    (filter_leads cache leads).1 =
      leads.filter (fun l => !(is_suppressed cache l.email)) ∧
    (filter_leads cache leads).2 =
      leads.filter (fun l => is_suppressed cache l.email) ∧
    (∀ l ∈ leads, l.email = "" → l ∈ (filter_leads cache leads).1) ∧
    is_suppressed cache "" = false := by
  refine ⟨filter_leads_length cache leads, (filter_leads_spec cache leads).1,
    (filter_leads_spec cache leads).2, ?_, rfl⟩
  intro l hl he
  rw [(filter_leads_spec cache leads).1]
  refine List.mem_filter.mpr ⟨hl, ?_⟩
  simp [he, is_suppressed]

/-- Witness for C6 on a three-lead batch over the concrete suppression
table. -/
theorem filter_leads_partitions_witness :
    filter_leads pipelineCache [optOutLead, goodLead, badLead] =
      ([goodLead, badLead], [optOutLead]) ∧
    (filter_leads pipelineCache [optOutLead, goodLead, badLead]).1.length +
      (filter_leads pipelineCache [optOutLead, goodLead, badLead]).2.length
      = 3 ∧
    badLead ∈ (filter_leads pipelineCache [optOutLead, goodLead, badLead]).1 :=
  ⟨by decide,
   (filter_leads_partitions pipelineCache [optOutLead, goodLead, badLead]).1,
   (filter_leads_partitions pipelineCache
      [optOutLead, goodLead, badLead]).2.2.2.1 badLead (by decide) rfl⟩

/-- Appending a fresh key to a cache makes it findable. -/
theorem lookup_entry_append (key : String) (v : SuppressionEntry)
    (cache : SuppressionCache) (h : lookup_entry key cache = none) :
    lookup_entry key (cache ++ [(key, v)]) = some v := by
  induction cache with
  | nil => simp [lookup_entry]
  | cons p rest ih =>
    obtain ⟨k, w⟩ := p
    by_cases hk : k = key
    · simp [lookup_entry, hk] at h
    · simp only [lookup_entry, hk, if_false, List.cons_append] at h ⊢
      exact ih h

/-- A key `lookup_entry` cannot find occurs in no pair of the cache. -/
theorem lookup_none_filter (key : String) (cache : SuppressionCache)
    (h : lookup_entry key cache = none) :
    cache.filter (fun p => p.1 == key) = [] := by
  induction cache with
  | nil => rfl
  | cons p rest ih =>
    obtain ⟨k, w⟩ := p
    by_cases hk : k = key
    · simp [lookup_entry, hk] at h
    · simp only [lookup_entry, hk, if_false] at h
      have hb : (k == key) = false := by simp [hk]
      simp [List.filter_cons, hb, ih h]

/-- `is_suppressed` fails on a non-empty email exactly when its
normalized key is absent. -/
theorem is_suppressed_false_lookup (cache : SuppressionCache)
    (email : String) (hne : email ≠ "")
    (h : is_suppressed cache email = false) :
    lookup_entry (normalize_key email) cache = none := by
  cases hlk : lookup_entry (normalize_key email) cache with
  | none => rfl
  | some v => simp [is_suppressed, hne, hlk] at h

/-- `bulk_add` grows the cache by exactly its reported count of new
additions. -/
theorem bulk_add_count (now : String) (entries : List BulkEntry) :
    ∀ cache : SuppressionCache,
      (bulk_add cache now entries).1.length =
        cache.length + (bulk_add cache now entries).2 := by
  induction entries with
  | nil => intro cache; rfl
  | cons e rest ih =>
    intro cache
    by_cases hc : e.email ≠ "" ∧ is_suppressed cache e.email = false
    · have hnone := is_suppressed_false_lookup cache e.email hc.1 hc.2
      have hlen : (suppression_add cache e.email e.reason e.source now).length
          = cache.length + 1 := by
        simp [suppression_add, hnone]
      simp only [bulk_add]
      rw [if_pos hc]
      show (bulk_add (suppression_add cache e.email e.reason e.source now)
          now rest).1.length = cache.length +
        ((bulk_add (suppression_add cache e.email e.reason e.source now)
          now rest).2 + 1)
      rw [ih, hlen]
      omega
    · simp only [bulk_add, hc, if_false]
      exact ih cache

/-- C5: `add` is idempotent with first-write-wins — a repeat `add` with a
different reason is a no-op, the table keeps exactly one entry for the
normalized key and it records the first reason; and `bulk_add` bumps the
count by exactly 1 for a previously-unseen non-empty email and by 0 for
an already-suppressed or empty one. -/
theorem suppression_add_first_write_wins
    (cache : SuppressionCache) (x A B s1 s2 t1 t2 now : String)
    (hfresh : lookup_entry (normalize_key x) cache = none) :
    suppression_add (suppression_add cache x A s1 t1) x B s2 t2 =
      suppression_add cache x A s1 t1 ∧
    (suppression_add (suppression_add cache x A s1 t1) x B s2 t2).filter
        (fun p => p.1 == normalize_key x) =
      [(normalize_key x, ⟨A, s1, t1⟩)] ∧
    lookup_entry (normalize_key x)
        (suppression_add (suppression_add cache x A s1 t1) x B s2 t2) =
      some ⟨A, s1, t1⟩ ∧
    (∀ entries : List BulkEntry,
      suppression_count (bulk_add cache now entries).1 =
        suppression_count cache + (bulk_add cache now entries).2) ∧
    (∀ e : BulkEntry, e.email ≠ "" → is_suppressed cache e.email = false →
      bulk_add cache now [e] =
        (cache ++ [(normalize_key e.email, ⟨e.reason, e.source, now⟩)], 1)) ∧
    (∀ e : BulkEntry, e.email = "" ∨ is_suppressed cache e.email = true →
      bulk_add cache now [e] = (cache, 0)) := by
  have hshape : suppression_add cache x A s1 t1 =
      cache ++ [(normalize_key x, ⟨A, s1, t1⟩)] := by
    simp [suppression_add, hfresh]
  have hkey : lookup_entry (normalize_key x)
      (suppression_add cache x A s1 t1) = some ⟨A, s1, t1⟩ := by
    rw [hshape]
    exact lookup_entry_append _ _ _ hfresh
  have hsecond : suppression_add (suppression_add cache x A s1 t1) x B s2 t2
      = suppression_add cache x A s1 t1 := by
    show (match lookup_entry (normalize_key x)
        (suppression_add cache x A s1 t1) with
      | some _ => suppression_add cache x A s1 t1
      | none => suppression_add cache x A s1 t1 ++
          [(normalize_key x, ⟨B, s2, t2⟩)]) =
      suppression_add cache x A s1 t1
    rw [hkey]
  refine ⟨hsecond, ?_, ?_, ?_, ?_, ?_⟩
  · rw [hsecond, hshape, List.filter_append, lookup_none_filter _ _ hfresh]
    simp
  · rw [hsecond]
    exact hkey
  · intro entries
    exact bulk_add_count now entries cache
  · intro e hne hsup
    have hnone := is_suppressed_false_lookup cache e.email hne hsup
    simp [bulk_add, hne, hsup, suppression_add, hnone]
  · intro e hcase
    have : ¬(e.email ≠ "" ∧ is_suppressed cache e.email = false) := by
      rcases hcase with h | h <;> simp [h]
    simp [bulk_add, this]

/-- Witness for C5 on a fresh email added twice and a concrete
`bulk_add` batch with a duplicate and an empty email. -/
theorem suppression_add_first_write_wins_witness :
    lookup_entry (normalize_key " Dup@Test.com") ([] : SuppressionCache)
      = none ∧
    suppression_add
        (suppression_add [] " Dup@Test.com" "bounce" "manual" "t1")
        " Dup@Test.com" "spam_complaint" "webhook" "t2" =
      suppression_add [] " Dup@Test.com" "bounce" "manual" "t1" ∧
    lookup_entry (normalize_key " Dup@Test.com")
        (suppression_add
          (suppression_add [] " Dup@Test.com" "bounce" "manual" "t1")
          " Dup@Test.com" "spam_complaint" "webhook" "t2") =
      some ⟨"bounce", "manual", "t1"⟩ ∧
    suppression_count (bulk_add [] "t3" bulkEntriesSample).1 =
      suppression_count ([] : SuppressionCache) +
        (bulk_add [] "t3" bulkEntriesSample).2 ∧
    (bulk_add [] "t3" bulkEntriesSample).2 = 1 :=
  ⟨rfl,
   (suppression_add_first_write_wins [] " Dup@Test.com" "bounce"
      "spam_complaint" "manual" "webhook" "t1" "t2" "t3" rfl).1,
   (suppression_add_first_write_wins [] " Dup@Test.com" "bounce"
      "spam_complaint" "manual" "webhook" "t1" "t2" "t3" rfl).2.2.1,
   (suppression_add_first_write_wins [] " Dup@Test.com" "bounce"
      "spam_complaint" "manual" "webhook" "t1" "t2" "t3" rfl).2.2.2.1
     bulkEntriesSample,
   by decide⟩

/-- C7: a snapshot with `total_sent = 0` has all four rates `0.0`, is
healthy, and produces no alerts; otherwise the bounce, unsubscribe and
low-reply alerts appear independently and cumulatively, each exactly when
its condition holds; and `total_sent = 1000`, `total_bounced = 50` give a
5.0% bounce rate, unhealthy at a 2% threshold. -/
theorem campaign_health_thresholds (h : CampaignHealth) (thr : ℚ) :
    (h.total_sent = 0 →
      h.bounce_rate = 0 ∧ h.reply_rate = 0 ∧ h.open_rate = 0 ∧
      h.unsubscribe_rate = 0 ∧ h.is_healthy = true ∧
      check_and_alert h thr = []) ∧
    (h.total_sent ≠ 0 →
      (bounce_alert_msg ∈ check_and_alert h thr ↔ h.bounce_rate > thr) ∧
      (unsub_alert_msg ∈ check_and_alert h thr ↔ h.unsubscribe_rate > 2) ∧
      (low_reply_msg ∈ check_and_alert h thr ↔
        500 ≤ h.total_sent ∧ h.reply_rate < 3) ∧
      (check_and_alert h thr).length =
        (if h.bounce_rate > thr then 1 else 0) +
        (if h.unsubscribe_rate > 2 then 1 else 0) +
        (if 500 ≤ h.total_sent ∧ h.reply_rate < 3 then 1 else 0)) ∧
    (CampaignHealth.bounce_rate
        { campaign_id := "c", total_sent := 1000, total_bounced := 50 }
      = 5 ∧
     CampaignHealth.is_healthy
        { campaign_id := "c", total_sent := 1000, total_bounced := 50 } 2 2
      = false) := by
  refine ⟨?_, ?_, ?_, ?_⟩
  · intro h0
    have hb : h.bounce_rate = 0 := by
      simp [CampaignHealth.bounce_rate, h0]
    have hr : h.reply_rate = 0 := by
      simp [CampaignHealth.reply_rate, h0]
    have ho : h.open_rate = 0 := by
      simp [CampaignHealth.open_rate, h0]
    have hu : h.unsubscribe_rate = 0 := by
      simp [CampaignHealth.unsubscribe_rate, h0]
    refine ⟨hb, hr, ho, hu, ?_, ?_⟩
    · simp [CampaignHealth.is_healthy, hb, hu]
    · simp [check_and_alert, h0]
  · intro hne
    have hd12 : bounce_alert_msg ≠ unsub_alert_msg := by decide
    have hd13 : bounce_alert_msg ≠ low_reply_msg := by decide
    have hd23 : unsub_alert_msg ≠ low_reply_msg := by decide
    by_cases hb : h.bounce_rate > thr <;>
      by_cases hu : h.unsubscribe_rate > 2 <;>
        by_cases hr : 500 ≤ h.total_sent ∧ h.reply_rate < 3 <;>
          simp [check_and_alert, hne, hb, hu, hr, hd12, hd13, hd23,
            hd12.symm, hd13.symm, hd23.symm]
  · show (if (1000 : Nat) ≠ 0 then ((50 : ℚ) / 1000 * 100) else 0) = 5
    norm_num
  · have h5 : CampaignHealth.bounce_rate
        { campaign_id := "c", total_sent := 1000, total_bounced := 50 }
        = 5 := by
      show (if (1000 : Nat) ≠ 0 then ((50 : ℚ) / 1000 * 100) else 0) = 5
      norm_num
    simp only [CampaignHealth.is_healthy, h5]
    norm_num

/-- Witness for C7 at a zero-send snapshot and at the 1000-send,
50-bounce snapshot from the spec. -/
theorem campaign_health_thresholds_witness :
    ((⟨"c1", 0, 0, 0, 0, 0⟩ : CampaignHealth).total_sent = 0 ∧
      check_and_alert ⟨"c1", 0, 0, 0, 0, 0⟩ 2 = []) ∧
    ((⟨"c2", 1000, 0, 0, 50, 0⟩ : CampaignHealth).total_sent ≠ 0 ∧
      (bounce_alert_msg ∈ check_and_alert ⟨"c2", 1000, 0, 0, 50, 0⟩ 2 ↔
        CampaignHealth.bounce_rate (⟨"c2", 1000, 0, 0, 50, 0⟩ :
          CampaignHealth) > 2)) :=
  ⟨⟨rfl,
    ((campaign_health_thresholds ⟨"c1", 0, 0, 0, 0, 0⟩ 2).1 rfl).2.2.2.2.2⟩,
   ⟨by decide,
    ((campaign_health_thresholds ⟨"c2", 1000, 0, 0, 50, 0⟩ 2).2.1
      (by decide)).1⟩⟩

/-- When every attempt the loop may make fails retryably, the loop stops
at the last permitted attempt and returns its failure. -/
theorem retryLoop_all_retryable {α : Type} (f : Nat → CallOutcome α) :
    ∀ fuel attempt,
      (∀ n, attempt ≤ n → n ≤ attempt + fuel →
        is_retryable_failure (f n) = true) →
      retryLoop f fuel attempt = (f (attempt + fuel), attempt + fuel + 1) := by
  intro fuel
  induction fuel with
  | zero =>
    intro attempt hall
    have h0 := hall attempt le_rfl (by omega)
    cases hf : f attempt with
    | ok a => rw [hf] at h0; simp [is_retryable_failure] at h0
    | otherError => rw [hf] at h0; simp [is_retryable_failure] at h0
    | httpError s => simp [retryLoop, hf]
    | netError => simp [retryLoop, hf]
  | succ fuel' ih =>
    intro attempt hall
    have h0 := hall attempt le_rfl (by omega)
    have hrest : ∀ n, attempt + 1 ≤ n → n ≤ attempt + 1 + fuel' →
        is_retryable_failure (f n) = true := by
      intro n h1 h2
      exact hall n (by omega) (by omega)
    have harith : attempt + 1 + fuel' = attempt + (fuel' + 1) := by omega
    cases hf : f attempt with
    | ok a => rw [hf] at h0; simp [is_retryable_failure] at h0
    | otherError => rw [hf] at h0; simp [is_retryable_failure] at h0
    | httpError s =>
      rw [hf] at h0
      simp only [is_retryable_failure, decide_eq_true_eq] at h0
      rw [show retryLoop f (fuel' + 1) attempt =
          (if s ∈ RETRYABLE_STATUS_CODES then retryLoop f fuel' (attempt + 1)
           else (.httpError s, attempt + 1)) by simp [retryLoop, hf]]
      rw [if_pos h0, ih (attempt + 1) hrest, harith]
    | netError =>
      rw [show retryLoop f (fuel' + 1) attempt =
          retryLoop f fuel' (attempt + 1) by simp [retryLoop, hf]]
      rw [ih (attempt + 1) hrest, harith]

/-- C4: under `retry_with_backoff` with `max_retries = 2`, an operation
failing twice with HTTP 503 and succeeding on the third attempt returns
the success after exactly 3 invocations; an operation failing with HTTP
404 is invoked exactly once and the error propagates at once; and when
all three permitted attempts fail retryably, the last failure propagates
unchanged after exactly 3 invocations. -/
theorem retry_with_backoff_policy {α : Type} (f : Nat → CallOutcome α)
    (a : α) :
    (f 0 = .httpError 503 → f 1 = .httpError 503 → f 2 = .ok a →
      retry_with_backoff 2 f = (.ok a, 3)) ∧
    (f 0 = .httpError 404 → retry_with_backoff 2 f = (.httpError 404, 1)) ∧
    ((∀ n, n ≤ 2 → is_retryable_failure (f n) = true) →
      retry_with_backoff 2 f = (f 2, 3)) := by
  refine ⟨?_, ?_, ?_⟩
  · intro h0 h1 h2
    simp [retry_with_backoff, retryLoop, h0, h1, h2, RETRYABLE_STATUS_CODES]
  · intro h0
    simp [retry_with_backoff, retryLoop, h0, RETRYABLE_STATUS_CODES]
  · intro hall
    have := retryLoop_all_retryable f 2 0 (fun n _ hn => hall n hn)
    simpa [retry_with_backoff] using this

/-- Witness for C4: a 503-503-success operation, an immediate-404
operation, and an always-timing-out operation. -/
theorem retry_with_backoff_policy_witness :
    retry_with_backoff 2
        (fun n => if n < 2 then (.httpError 503 : CallOutcome Nat) else .ok 7)
      = (.ok 7, 3) ∧
    retry_with_backoff 2 (fun _ => (.httpError 404 : CallOutcome Nat))
      = (.httpError 404, 1) ∧
    retry_with_backoff 2 (fun _ => (.netError : CallOutcome Nat))
      = (.netError, 3) :=
  ⟨(retry_with_backoff_policy
      (fun n => if n < 2 then (.httpError 503 : CallOutcome Nat) else .ok 7)
      7).1 (by decide) (by decide) (by decide),
   (retry_with_backoff_policy (fun _ => (.httpError 404 : CallOutcome Nat))
      7).2.1 (by decide),
   (retry_with_backoff_policy (fun _ => (.netError : CallOutcome Nat))
      7).2.2 (fun n hn => rfl)⟩

/-- A layer that yields no usable candidate is seen by `enrich`'s
`try/except` as the candidate `None`. -/
theorem caught_of_no_result (r : CallOutcome (Option String))
    (h : layer_no_result r = true) : caught_candidate r = some none := by
  cases r with
  | ok c =>
    cases c with
    | none => rfl
    | some s => simp [layer_no_result] at h
  | httpError s => rfl
  | netError => rfl
  | otherError => simp [layer_no_result] at h

/-- C9: when the existing email is invalid, the website is non-empty, and
neither provider layer yields a usable candidate, `enrich` returns the
lead with `enrichment_source = "scraped"` (the initial default), not
`"none"`, while its unchanged email still fails validation — so
`"scraped"` does not imply the lead carried a valid scraped email. -/
theorem enrich_no_candidates_keeps_scraped (env : ProviderEnv) (lead : Lead)
    (hbad : is_valid_email lead.email = false)
    (hweb : lead.website ≠ "")
    (hp : layer_no_result
      (prospeo_search env (extract_domain lead.website)).1 = true)
    (hh : layer_no_result
      (hunter_search env (extract_domain lead.website)).1 = true) :
    enrich env lead = .ok { lead with enrichment_source := "scraped" } ∧
    ("scraped" : String) ≠ "none" ∧
    is_valid_email
        ({ lead with enrichment_source := "scraped" } : Lead).email
      = false := by
  refine ⟨?_, by decide, hbad⟩
  unfold enrich
  rw [if_neg (by simp [hbad]), if_neg hweb, caught_of_no_result _ hp,
    caught_of_no_result _ hh]
  simp [layer_update, hbad]

/-- Witness for C9: a 404-ing Prospeo and a timing-out Hunter leave
`webLead`'s invalid email in place under source `"scraped"`. -/
theorem enrich_no_candidates_keeps_scraped_witness :
    is_valid_email webLead.email = false ∧
    webLead.website ≠ "" ∧
    layer_no_result
      (prospeo_search envNoCandidates (extract_domain webLead.website)).1
      = true ∧
    layer_no_result
      (hunter_search envNoCandidates (extract_domain webLead.website)).1
      = true ∧
    enrich envNoCandidates webLead =
      .ok { webLead with enrichment_source := "scraped" } :=
  ⟨by decide, by decide, by decide, by decide,
   (enrich_no_candidates_keeps_scraped envNoCandidates webLead (by decide)
      (by decide) (by decide) (by decide)).1⟩

/-- A successful retry-loop outcome is the successful outcome of one of
the attempts. -/
theorem retryLoop_ok_exists {α : Type} (f : Nat → CallOutcome α) :
    ∀ fuel attempt v, (retryLoop f fuel attempt).1 = .ok v →
      ∃ n, f n = .ok v := by
  intro fuel
  induction fuel with
  | zero =>
    intro attempt v h
    cases hf : f attempt <;> simp [retryLoop, hf] at h
    exact ⟨attempt, by rw [hf, h]⟩
  | succ fuel' ih =>
    intro attempt v h
    cases hf : f attempt with
    | ok a =>
      simp [retryLoop, hf] at h
      exact ⟨attempt, by rw [hf, h]⟩
    | httpError s =>
      rw [show retryLoop f (fuel' + 1) attempt =
          (if s ∈ RETRYABLE_STATUS_CODES then retryLoop f fuel' (attempt + 1)
           else (.httpError s, attempt + 1)) by simp [retryLoop, hf]] at h
      by_cases hs : s ∈ RETRYABLE_STATUS_CODES
      · rw [if_pos hs] at h
        exact ih (attempt + 1) v h
      · rw [if_neg hs] at h
        simp at h
    | netError =>
      rw [show retryLoop f (fuel' + 1) attempt =
          retryLoop f fuel' (attempt + 1) by simp [retryLoop, hf]] at h
      exact ih (attempt + 1) v h
    | otherError => simp [retryLoop, hf] at h

/-- The retry-loop outcome is always the outcome of one of the attempts. -/
theorem retryLoop_result_exists {α : Type} (f : Nat → CallOutcome α) :
    ∀ fuel attempt, ∃ n, (retryLoop f fuel attempt).1 = f n := by
  intro fuel
  induction fuel with
  | zero =>
    intro attempt
    cases hf : f attempt <;> exact ⟨attempt, by simp [retryLoop, hf]⟩
  | succ fuel' ih =>
    intro attempt
    cases hf : f attempt with
    | ok a => exact ⟨attempt, by simp [retryLoop, hf]⟩
    | httpError s =>
      by_cases hs : s ∈ RETRYABLE_STATUS_CODES
      · obtain ⟨n, hn⟩ := ih (attempt + 1)
        exact ⟨n, by rw [show retryLoop f (fuel' + 1) attempt =
          retryLoop f fuel' (attempt + 1) by simp [retryLoop, hf, hs]]; exact hn⟩
      · exact ⟨attempt, by simp [retryLoop, hf, hs]⟩
    | netError =>
      obtain ⟨n, hn⟩ := ih (attempt + 1)
      exact ⟨n, by rw [show retryLoop f (fuel' + 1) attempt =
        retryLoop f fuel' (attempt + 1) by simp [retryLoop, hf]]; exact hn⟩
    | otherError => exact ⟨attempt, by simp [retryLoop, hf]⟩

/-- `CallOutcome.map` never introduces the non-requests exception. -/
theorem map_ne_otherError {α β : Type} (g : α → β) (r : CallOutcome α)
    (h : r ≠ .otherError) : r.map g ≠ .otherError := by
  cases r <;> simp [CallOutcome.map] at h ⊢

/-- A search whose raw attempts never raise a non-requests exception
yields an outcome `enrich`'s `try/except` handles. -/
theorem caught_candidate_isSome (r : CallOutcome (Option String))
    (h : r ≠ .otherError) : ∃ c, caught_candidate r = some c := by
  cases r with
  | ok c => exact ⟨c, rfl⟩
  | httpError s => exact ⟨none, rfl⟩
  | netError => exact ⟨none, rfl⟩
  | otherError => exact absurd rfl h

/-- `enrich` returns normally whenever neither search endpoint raises a
non-requests exception. -/
theorem enrich_returns (env : ProviderEnv) (lead : Lead)
    (hp : ∀ d n, env.prospeoRaw d n ≠ .otherError)
    (hh : ∀ d n, env.hunterRaw d n ≠ .otherError) :
    ∃ l, enrich env lead = .ok l := by
  have hpr : (prospeo_search env (extract_domain lead.website)).1 ≠
      .otherError := by
    obtain ⟨n, hn⟩ := retryLoop_result_exists
      (fun attempt => (env.prospeoRaw (extract_domain lead.website)
        attempt).map candidate_of) 2 0
    rw [prospeo_search, retry_with_backoff, hn]
    exact map_ne_otherError _ _ (hp _ n)
  have hhr : (hunter_search env (extract_domain lead.website)).1 ≠
      .otherError := by
    obtain ⟨n, hn⟩ := retryLoop_result_exists
      (fun attempt => (env.hunterRaw (extract_domain lead.website)
        attempt).map candidate_of) 2 0
    rw [hunter_search, retry_with_backoff, hn]
    exact map_ne_otherError _ _ (hh _ n)
  unfold enrich
  by_cases h1 : is_valid_email lead.email = true
  · rw [if_pos h1]; exact ⟨_, rfl⟩
  · rw [if_neg h1]
    by_cases h2 : lead.website = ""
    · rw [if_pos h2]; exact ⟨_, rfl⟩
    · rw [if_neg h2]
      cases hps : (prospeo_search env (extract_domain lead.website)).1 with
      | otherError => exact absurd hps hpr
      | ok c =>
        cases hhs : (hunter_search env (extract_domain lead.website)).1 with
        | otherError => exact absurd hhs hhr
        | ok c2 =>
          simp only [caught_candidate]
          split <;> exact ⟨_, rfl⟩
        | httpError s =>
          simp only [caught_candidate]
          split <;> exact ⟨_, rfl⟩
        | netError =>
          simp only [caught_candidate]
          split <;> exact ⟨_, rfl⟩
      | httpError s0 =>
        cases hhs : (hunter_search env (extract_domain lead.website)).1 with
        | otherError => exact absurd hhs hhr
        | ok c2 =>
          simp only [caught_candidate]
          split <;> exact ⟨_, rfl⟩
        | httpError s =>
          simp only [caught_candidate]
          split <;> exact ⟨_, rfl⟩
        | netError =>
          simp only [caught_candidate]
          split <;> exact ⟨_, rfl⟩
      | netError =>
        cases hhs : (hunter_search env (extract_domain lead.website)).1 with
        | otherError => exact absurd hhs hhr
        | ok c2 =>
          simp only [caught_candidate]
          split <;> exact ⟨_, rfl⟩
        | httpError s =>
          simp only [caught_candidate]
          split <;> exact ⟨_, rfl⟩
        | netError =>
          simp only [caught_candidate]
          split <;> exact ⟨_, rfl⟩

/-- `verify_email` returns normally whenever every verifier attempt
returns normally. -/
theorem verify_email_returns (env : ProviderEnv) (email : String)
    (hv : ∀ e n, (env.verifier e n).isOk = true) :
    ∃ b, verify_email env email = .ok b := by
  unfold verify_email
  by_cases h1 : is_valid_email email = true
  · rw [if_neg (by simp [h1])]
    obtain ⟨n, hn⟩ := retryLoop_result_exists
      (fun attempt => (env.verifier email attempt).map
        (fun result => result == "valid")) 2 0
    rw [retry_with_backoff, hn]
    have hvn := hv email n
    cases hvr : env.verifier email n with
    | ok s => exact ⟨s == "valid", rfl⟩
    | httpError s => rw [hvr] at hvn; simp [CallOutcome.isOk] at hvn
    | netError => rw [hvr] at hvn; simp [CallOutcome.isOk] at hvn
    | otherError => rw [hvr] at hvn; simp [CallOutcome.isOk] at hvn
  · rw [if_pos (by simp [h1])]
    exact ⟨false, rfl⟩

/-- `enrich_and_verify` returns normally whenever searches raise no
non-requests exception and the verifier always answers. -/
theorem enrich_and_verify_returns (env : ProviderEnv) (lead : Lead)
    (hv : ∀ e n, (env.verifier e n).isOk = true)
    (hp : ∀ d n, env.prospeoRaw d n ≠ .otherError)
    (hh : ∀ d n, env.hunterRaw d n ≠ .otherError) :
    ∃ r, enrich_and_verify env lead = .ok r := by
  obtain ⟨l, hl⟩ := enrich_returns env lead hp hh
  unfold enrich_and_verify
  rw [hl]
  simp only [CallOutcome.bind]
  by_cases h1 : is_valid_email l.email = true
  · obtain ⟨b, hb⟩ := verify_email_returns env l.email hv
    rw [if_pos h1, hb]
    exact ⟨_, rfl⟩
  · rw [if_neg h1]
    exact ⟨_, rfl⟩

/-- When every lead's processing returns normally, the batch loop runs to
completion and keeps exactly the verified leads, in order. -/
theorem process_batch_complete (env : ProviderEnv)
    (hok : ∀ l : Lead, ∃ r, enrich_and_verify env l = .ok r) :
    ∀ leads : List Lead,
      process_batch env leads = .ok (leads.filterMap (keep_verified env)) := by
  intro leads
  induction leads with
  | nil => rfl
  | cons lead rest ih =>
    obtain ⟨r, hr⟩ := hok lead
    by_cases hv : r.email_verified = true <;>
      simp [process_batch, CallOutcome.bind, hr, ih, keep_verified, hv]

/-- A normally returned batch is exactly the ordered sublist of kept
verified leads. -/
theorem process_batch_ok_eq (env : ProviderEnv) :
    ∀ (leads out : List Lead), process_batch env leads = .ok out →
      out = leads.filterMap (keep_verified env) := by
  intro leads
  induction leads with
  | nil =>
    intro out h
    simpa [process_batch] using h.symm
  | cons lead rest ih =>
    intro out h
    cases he : enrich_and_verify env lead with
    | ok r =>
      cases hpb : process_batch env rest with
      | ok tail =>
        rw [show process_batch env (lead :: rest) =
            .ok (if r.email_verified then r :: tail else tail) by
          simp [process_batch, CallOutcome.bind, he, hpb]] at h
        have hout : out = if r.email_verified then r :: tail else tail := by
          cases h; rfl
        by_cases hv : r.email_verified = true <;>
          simp [hout, hv, keep_verified, he, ih tail hpb]
      | httpError s => simp [process_batch, CallOutcome.bind, he, hpb] at h
      | netError => simp [process_batch, CallOutcome.bind, he, hpb] at h
      | otherError => simp [process_batch, CallOutcome.bind, he, hpb] at h
    | httpError s => simp [process_batch, CallOutcome.bind, he] at h
    | netError => simp [process_batch, CallOutcome.bind, he] at h
    | otherError => simp [process_batch, CallOutcome.bind, he] at h

/-- A kept lead was verified: its flag is set, its email is valid, and
the verification call answered exactly `"valid"`. -/
theorem kept_lead_verified (env : ProviderEnv) (l r : Lead)
    (he : enrich_and_verify env l = .ok r)
    (hv : r.email_verified = true) :
    is_valid_email r.email = true ∧ verify_email env r.email = .ok true := by
  unfold enrich_and_verify at he
  cases henr : enrich env l with
  | ok l' =>
    rw [henr] at he
    simp only [CallOutcome.bind] at he
    by_cases h1 : is_valid_email l'.email = true
    · rw [if_pos h1] at he
      cases hvf : verify_email env l'.email with
      | ok b =>
        rw [hvf] at he
        simp only [CallOutcome.bind, CallOutcome.ok.injEq] at he
        subst he
        refine ⟨h1, ?_⟩
        simp only at hv
        subst hv
        exact hvf
      | httpError s => rw [hvf] at he; simp [CallOutcome.bind] at he
      | netError => rw [hvf] at he; simp [CallOutcome.bind] at he
      | otherError => rw [hvf] at he; simp [CallOutcome.bind] at he
    · rw [if_neg h1] at he
      simp only [CallOutcome.ok.injEq] at he
      subst he
      simp at hv
  | httpError s => rw [henr] at he; simp [CallOutcome.bind] at he
  | netError => rw [henr] at he; simp [CallOutcome.bind] at he
  | otherError => rw [henr] at he; simp [CallOutcome.bind] at he

/-- A `verify_email` verdict of `True` means some verifier attempt
answered exactly `"valid"`. -/
theorem verify_true_exists (env : ProviderEnv) (email : String)
    (h1 : is_valid_email email = true)
    (h : verify_email env email = .ok true) :
    ∃ n, env.verifier email n = .ok "valid" := by
  unfold verify_email at h
  rw [if_neg (by simp [h1])] at h
  obtain ⟨n, hn⟩ := retryLoop_ok_exists _ 2 0 true h
  refine ⟨n, ?_⟩
  cases hvr : env.verifier email n <;> rw [hvr] at hn <;>
    simp [CallOutcome.map] at hn
  rw [hn]

/-- C1: a normally returned `process_batch` output is exactly the input
restricted, in order, to the leads kept as verified; every returned lead
has `email_verified = true`, a syntactically valid email, a `True`
verification verdict, and a verifier attempt that answered exactly
`"valid"`. -/
theorem process_batch_returns_exactly_verified (env : ProviderEnv)
    (leads out : List Lead) (h : process_batch env leads = .ok out) :
    out = leads.filterMap (keep_verified env) ∧
    ∀ r ∈ out, r.email_verified = true ∧ is_valid_email r.email = true ∧
      verify_email env r.email = .ok true ∧
      ∃ n, env.verifier r.email n = .ok "valid" := by
  have hout := process_batch_ok_eq env leads out h
  refine ⟨hout, ?_⟩
  intro r hr
  rw [hout] at hr
  obtain ⟨l, hl, hkeep⟩ := List.mem_filterMap.mp hr
  unfold keep_verified at hkeep
  cases he : enrich_and_verify env l with
  | ok r0 =>
    rw [he] at hkeep
    have hkeep2 : (if r0.email_verified = true then some r0 else none)
        = some r := hkeep
    by_cases hv : r0.email_verified = true
    · rw [if_pos hv] at hkeep2
      cases hkeep2
      obtain ⟨hval, hver⟩ := kept_lead_verified env l r he hv
      exact ⟨hv, hval, hver, verify_true_exists env r.email hval hver⟩
    · rw [if_neg hv] at hkeep2
      exact Option.noConfusion hkeep2
  | httpError s =>
    rw [he] at hkeep
    exact Option.noConfusion (show (none : Option Lead) = some r from hkeep)
  | netError =>
    rw [he] at hkeep
    exact Option.noConfusion (show (none : Option Lead) = some r from hkeep)
  | otherError =>
    rw [he] at hkeep
    exact Option.noConfusion (show (none : Option Lead) = some r from hkeep)

/-- Witness for C1: with a verifier that always answers `"valid"`, a
two-lead batch keeps exactly the lead whose email verified. -/
theorem process_batch_returns_exactly_verified_witness :
    process_batch envValid [goodLead, badLead] = .ok [goodLeadVerified] ∧
    ([goodLeadVerified] =
      [goodLead, badLead].filterMap (keep_verified envValid) ∧
     ∀ r ∈ [goodLeadVerified], r.email_verified = true ∧
       is_valid_email r.email = true ∧
       verify_email envValid r.email = .ok true ∧
       ∃ n, envValid.verifier r.email n = .ok "valid") :=
  ⟨by decide,
   process_batch_returns_exactly_verified envValid [goodLead, badLead]
     [goodLeadVerified] (by decide)⟩

/-- C2 counterexample: with a verification endpoint answering HTTP 404,
`process_batch` on a two-lead batch propagates the error instead of
returning a list — the second lead is never processed and no output list
exists, so a per-lead failure does abort the batch. -/
theorem process_batch_aborts_on_verify_error :
    process_batch env404 [goodLead, leadTwo] = .httpError 404 ∧
    (process_batch env404 [goodLead, leadTwo]).isOk = false := by
  exact ⟨by decide, by decide⟩

/-- C2 (amended): provider-search failures are isolated per lead — when
the verifier always answers and neither search raises a non-requests
exception, the batch runs to completion no matter how the searches fail;
but an exception escaping `enrich_and_verify` (e.g. a non-retryable HTTP
error from verification) propagates out of `process_batch` and aborts
the remaining leads. -/
theorem process_batch_fault_isolation (env : ProviderEnv) :
    ((∀ e n, (env.verifier e n).isOk = true) →
     (∀ d n, env.prospeoRaw d n ≠ .otherError) →
     (∀ d n, env.hunterRaw d n ≠ .otherError) →
     ∀ leads, process_batch env leads =
       .ok (leads.filterMap (keep_verified env))) ∧
    (∀ (lead : Lead) (rest : List Lead) (s : Nat),
      enrich_and_verify env lead = .httpError s →
      process_batch env (lead :: rest) = .httpError s) := by
  constructor
  · intro hv hp hh leads
    exact process_batch_complete env
      (fun l => enrich_and_verify_returns env l hv hp hh) leads
  · intro lead rest s he
    simp [process_batch, CallOutcome.bind, he]

/-- Witness for C2: searches failing with HTTP 500 and timeouts do not
abort a batch (it completes, dropping the unverifiable lead), while a
404 from verification aborts a batch from its first lead. -/
theorem process_batch_fault_isolation_witness :
    process_batch envFailingSearches [webLead] = .ok [] ∧
    enrich_and_verify env404 goodLead = .httpError 404 ∧
    process_batch env404 (goodLead :: [leadTwo]) = .httpError 404 :=
  ⟨(process_batch_fault_isolation envFailingSearches).1
     (fun _ _ => rfl)
     (by intro d n
         show (CallOutcome.httpError 500 : CallOutcome (Option String)) ≠
           CallOutcome.otherError
         decide)
     (by intro d n
         show (CallOutcome.netError : CallOutcome (Option String)) ≠
           CallOutcome.otherError
         decide)
     [webLead],
   by decide,
   (process_batch_fault_isolation env404).2 goodLead [leadTwo] 404
     (by decide)⟩

/-- C3: a full-run pipeline pushes its verified batch with no suppression
filtering — the batch posted to the outreach platform contains a lead
whose email is on the suppression list. -/
theorem pipeline_pushes_suppressed_lead :
    pipeline_pushed_batch envValid [optOutLead] = .ok [optOutVerified] ∧
    is_suppressed pipelineCache optOutVerified.email = true := by
  exact ⟨by decide, by decide⟩

end LeadGen
